import Mathlib

/-!
Shallow embedding of the hyper-meet-mute browser extension:
the background service worker (`js/background.js`, given as
`src/unnamed/part_000`) and the content script
(`src/ext/js/meetmute.js`).

The background side keeps a registry of connected Meet tabs
(`activeMeetTabs`, modelled as an insertion-ordered list of tab ids;
the port values are modelled by an environment predicate saying which
ports fail on `postMessage`) and a global aggregate state
(`globalMuteState` with fields `isMuted` and `hasMeetTab`).
Platform side effects (badge painting, storage writes, message sends,
tab queries) are reified as an `Effect` trace; timers are modelled by
splitting an action's trace into an immediate part and a delayed part
tagged with its delay in milliseconds.
-/

/-- Tab identifiers (opaque integers from the platform). -/
abbrev TabId := Nat

/-- `globalMuteState` in background.js. -/
structure GlobalMuteState where
  isMuted : Bool
  hasMeetTab : Bool
deriving DecidableEq, Repr

/-- Initial value of `globalMuteState` (background.js lines 5-8). -/
def initialGlobalMuteState : GlobalMuteState :=
  { isMuted := false, hasMeetTab := false }

/-- Badge appearance: the text, background color and title set by
`setGlobalBadge`. -/
structure Badge where
  text : String
  color : String
  title : String
deriving DecidableEq, Repr

/-- The disconnected appearance: `setGlobalBadge("", "#666666", "Disconnected")`. -/
def disconnectedBadge : Badge :=
  { text := "", color := "#666666", title := "Disconnected" }

/-- The amber warning shown when the icon is clicked with no active tabs:
`setGlobalBadge("!", "#FFC107", "No active Meet tabs")`. -/
def warningBadge : Badge :=
  { text := "!", color := "#FFC107", title := "No active Meet tabs" }

/-- Badge for a mute value: `"M"` red when muted, `"U"` green when unmuted
(background.js lines 182-186 and 202-206). -/
def muteBadge (muted : Bool) : Badge :=
  if muted then { text := "M", color := "#F44336", title := "Meet: Muted" }
  else { text := "U", color := "#4CAF50", title := "Meet: Unmuted" }

/-- `updateAllTabsBadge` is a pure function of the global state: mute badge
when a Meet tab is present, disconnected badge otherwise
(background.js lines 216-234). -/
def badgeFor (g : GlobalMuteState) : Badge :=
  if g.hasMeetTab then muteBadge g.isMuted else disconnectedBadge

/-- The command object `{ action: "toggleMute", muted: newMutedState }`
sent to content scripts. -/
structure Command where
  action : String
  muted : Bool
deriving DecidableEq, Repr

/-- Reified platform side effects of the background script. -/
inductive Effect where
  | setBadge (b : Badge)
  | setTitle (t : TabId) (title : String)
  | storageSet (muted : Bool)
  | portPost (t : TabId) (cmd : Command)
  | tabsQuery (urlPattern : String)
  | tabSend (t : TabId) (cmd : Command)
deriving DecidableEq, Repr

/-- A message arriving from a content script: the `message` string and
the optional `finalState` flag (absent modelled as `false`, which is how
JavaScript truthiness treats it). -/
structure InMsg where
  message : String
  finalState : Bool
deriving DecidableEq, Repr

/-- Background state: the key set of `activeMeetTabs` (insertion order
preserved, as for a JS `Map`) and `globalMuteState`. -/
structure BgState where
  registry : List TabId
  global : GlobalMuteState
deriving DecidableEq, Repr

/-- The initial background state: empty registry, default global state. -/
def initialBgState : BgState :=
  { registry := [], global := initialGlobalMuteState }

/-- `activeMeetTabs.set(tabId, port)`: on a fresh key the JS `Map` appends
it in insertion order; on an existing key only the port value is replaced,
so the key set is unchanged. -/
def registerTab (reg : List TabId) (t : TabId) : List TabId :=
  if reg.contains t then reg else reg ++ [t]

/-- `activeMeetTabs.delete(tabId)`: removes the key if present. -/
def deleteTab (reg : List TabId) (t : TabId) : List TabId :=
  reg.filter (fun x => x != t)

/-- `chrome.runtime.onConnect` listener (background.js lines 41-52): for a
port named `"meetmute-connection"`, store the connection and mark the
tab's title as connected.  The aggregate state is not touched. -/
def handleConnect (s : BgState) (portName : String) (t : TabId) :
    BgState × List Effect :=
  if portName == "meetmute-connection" then
    ({ s with registry := registerTab s.registry t },
     [.setTitle t "Connected to Meet"])
  else (s, [])

/-- `chrome.tabs.onRemoved` listener (background.js lines 16-28): if the
tab was registered, delete it; if the registry became empty, clear
`hasMeetTab` and show the disconnected badge. -/
def handleTabRemoved (s : BgState) (t : TabId) : BgState × List Effect :=
  if s.registry.contains t then
    let reg := deleteTab s.registry t
    if reg.length == 0 then
      ({ registry := reg, global := { s.global with hasMeetTab := false } },
       [.setBadge disconnectedBadge])
    else ({ s with registry := reg }, [])
  else (s, [])

/-- `port.onDisconnect` listener (background.js lines 54-64): delete the
tab unconditionally; if the registry is now empty, clear `hasMeetTab` and
show the disconnected badge. -/
def handlePortDisconnect (s : BgState) (t : TabId) : BgState × List Effect :=
  let reg := deleteTab s.registry t
  if reg.length == 0 then
    ({ registry := reg, global := { s.global with hasMeetTab := false } },
     [.setBadge disconnectedBadge])
  else ({ s with registry := reg }, [])

/-- `port.onMessage` listener (background.js lines 67-94): a
`"muted"`/`"unmuted"` message with `finalState` set overwrites `isMuted`,
forces `hasMeetTab := true` and repaints via `updateAllTabsBadge`; a
`"disconnected"` message only clears `hasMeetTab` (and repaints) when at
most one tab is registered, and never deletes the session. -/
def handlePortMessage (s : BgState) (m : InMsg) : BgState × List Effect :=
  if m.message == "muted" then
    if m.finalState then
      let g : GlobalMuteState := { isMuted := true, hasMeetTab := true }
      ({ s with global := g }, [.setBadge (badgeFor g)])
    else (s, [])
  else if m.message == "unmuted" then
    if m.finalState then
      let g : GlobalMuteState := { isMuted := false, hasMeetTab := true }
      ({ s with global := g }, [.setBadge (badgeFor g)])
    else (s, [])
  else if m.message == "disconnected" then
    if s.registry.length ≤ 1 then
      let g : GlobalMuteState := { s.global with hasMeetTab := false }
      ({ s with global := g }, [.setBadge (badgeFor g)])
    else (s, [])
  else (s, [])

/-- `chrome.runtime.onMessage` listener (background.js lines 99-119), for
messages with `sender.tab` present: `"content_script_loaded"` is only
acknowledged; `"muted"`/`"unmuted"` with `finalState` set update the
global state exactly like the port path. -/
def handleOneShotMessage (s : BgState) (m : InMsg) : BgState × List Effect :=
  if m.message == "content_script_loaded" then (s, [])
  else if m.message == "muted" || m.message == "unmuted" then
    if m.finalState then
      let g : GlobalMuteState :=
        { isMuted := m.message == "muted", hasMeetTab := true }
      ({ s with global := g }, [.setBadge (badgeFor g)])
    else (s, [])
  else (s, [])

example : (handlePortMessage ⟨[3], ⟨false, false⟩⟩ ⟨"muted", true⟩).1
    = ⟨[3], ⟨true, true⟩⟩ := by decide

example : (handlePortMessage ⟨[3], ⟨true, true⟩⟩ ⟨"disconnected", false⟩).1
    = ⟨[3], ⟨true, false⟩⟩ := by decide

example : (handleConnect initialBgState "meetmute-connection" 7).1
    = ⟨[7], ⟨false, false⟩⟩ := by decide

/-- Environment for the asynchronous parts of the background script:
the persisted `muted` preference at the two points it is read
(`none` models an absent/`undefined` value), which registered ports
throw on `postMessage`, and the tab list the fallback
`chrome.tabs.query` would return. -/
structure Env where
  stored : Option Bool
  storedAtCheck : Option Bool
  fails : TabId → Bool
  fallbackTabs : List TabId

/-- The URL pattern of the fallback query (background.js line 267). -/
def meetUrlPattern : String := "https://meet.google.com/*"

/-- The `for (const [tabId, port] of activeMeetTabs.entries())` loop of
`sendMessageToContentScript` (background.js lines 254-262): post the
command to each port in order; if `postMessage` throws, delete that
entry and continue with the rest. Returns the surviving registry and
the trace of successful posts. -/
def broadcastLoop (fails : TabId → Bool) (cmd : Command) :
    List TabId → List TabId × List Effect
  | [] => ([], [])
  | t :: rest =>
    let r := broadcastLoop fails cmd rest
    if fails t then r
    else (t :: r.1, .portPost t cmd :: r.2)

/-- `sendMessageToContentScript` (background.js lines 248-285): with a
non-empty registry, run the port loop and return; with an empty
registry, query for Meet tabs by URL pattern and send a one-shot
message to each found tab, each send's failure caught individually. -/
def sendMessageToContentScript (reg : List TabId) (env : Env)
    (cmd : Command) : List TabId × List Effect :=
  if reg.length > 0 then broadcastLoop env.fails cmd reg
  else
    (reg, .tabsQuery meetUrlPattern ::
      env.fallbackTabs.map (fun t => .tabSend t cmd))

/-- The outcome of a user-triggered action: the registry it leaves
behind, the effects it performs synchronously, and the effects its
`setTimeout` callback performs after `delay` milliseconds. -/
structure ActionResult where
  newRegistry : List TabId
  immediate : List Effect
  delay : Nat
  delayed : List Effect
deriving Repr

/-- `simpleToggleMute(fromIconClick)` (background.js lines 166-212):
read `storage.muted` (an absent value is falsy, so its negation is
`true`), persist the negation, paint the badge optimistically only when
`fromIconClick` is false, broadcast the toggle command, and after
300 ms (icon click) or 500 ms (otherwise) re-read the preference and
paint the badge to match it. -/
def simpleToggleMute (fromIconClick : Bool) (env : Env)
    (reg : List TabId) : ActionResult :=
  let newMutedState := !(env.stored.getD false)
  let sendResult := sendMessageToContentScript reg env
    { action := "toggleMute", muted := newMutedState }
  { newRegistry := sendResult.1
    immediate :=
      .storageSet newMutedState ::
      ((if fromIconClick then [] else [.setBadge (muteBadge newMutedState)]) ++
        sendResult.2)
    delay := if fromIconClick then 300 else 500
    delayed := [.setBadge (muteBadge (env.storedAtCheck.getD false))] }

/-- An event handler that does nothing. -/
def noopResult (reg : List TabId) : ActionResult :=
  { newRegistry := reg, immediate := [], delay := 0, delayed := [] }

/-- `chrome.commands.onCommand` listener (background.js lines 122-127):
the registered `"toggle_mute"` shortcut runs `simpleToggleMute(true)`
("treat like icon click to avoid flickering"). -/
def handleCommand (name : String) (env : Env) (reg : List TabId) :
    ActionResult :=
  if name == "toggle_mute" then simpleToggleMute true env reg
  else noopResult reg

/-- `chrome.action.onClicked` listener (background.js lines 130-148):
with zero registered tabs, show the amber `"!"` warning, schedule its
reversion to the disconnected badge after 3000 ms, and return without
toggling; otherwise run `simpleToggleMute(true)`. -/
def handleIconClick (env : Env) (reg : List TabId) : ActionResult :=
  if reg.length == 0 then
    { newRegistry := reg
      immediate := [.setBadge warningBadge]
      delay := 3000
      delayed := [.setBadge disconnectedBadge] }
  else simpleToggleMute true env reg

/-- Every event the background script reacts to. -/
inductive BgEvent where
  | connect (portName : String) (t : TabId)
  | tabRemoved (t : TabId)
  | portDisconnect (t : TabId)
  | portMsg (t : TabId) (m : InMsg)
  | oneShotMsg (t : TabId) (m : InMsg)
  | command (name : String)
  | iconClick

/-- One background event dispatch: the state after the handler (and,
for the toggle paths, after its scheduled callback) together with the
full effect trace. -/
def bgStep (env : Env) (s : BgState) : BgEvent → BgState × List Effect
  | .connect portName t => handleConnect s portName t
  | .tabRemoved t => handleTabRemoved s t
  | .portDisconnect t => handlePortDisconnect s t
  | .portMsg _ m => handlePortMessage s m
  | .oneShotMsg _ m => handleOneShotMessage s m
  | .command name =>
    let r := handleCommand name env s.registry
    ({ s with registry := r.newRegistry }, r.immediate ++ r.delayed)
  | .iconClick =>
    let r := handleIconClick env s.registry
    ({ s with registry := r.newRegistry }, r.immediate ++ r.delayed)

/-- An environment with no port failures and no fallback tabs, with the
stored preference `b` at both reads. -/
def quietEnv (b : Option Bool) : Env :=
  { stored := b, storedAtCheck := b
    fails := fun _ => false, fallbackTabs := [] }

example :
    (simpleToggleMute true (quietEnv (some false)) [7]).immediate
      = [.storageSet true, .portPost 7 ⟨"toggleMute", true⟩] := by
  decide

example :
    (simpleToggleMute false (quietEnv none) [7]).immediate
      = [.storageSet true, .setBadge (muteBadge true),
         .portPost 7 ⟨"toggleMute", true⟩] := by
  decide

example :
    (handleIconClick (quietEnv none) []).immediate
      = [.setBadge warningBadge] := by
  decide

/-!
Content-script side (`src/ext/js/meetmute.js`).

`handleMessage` runs against the live DOM, which it samples at three
points: when the handler runs, at the quick check 50 ms later and at
the final check a further 200 ms later.  The DOM is a third-party
collaborator, so those three samples (and whether the mute button
exists) are inputs of the embedding.
-/

/-- The DOM as sampled by one `handleMessage` episode: whether
`document.querySelector(MUTE_BUTTON)` finds the button, and the
`data-is-muted` attribute at the three read points. -/
structure Dom where
  buttonPresent : Bool
  attrNow : Bool
  attrQuick : Bool
  attrFinal : Bool
deriving DecidableEq, Repr

/-- A message sent from the content script to the background via
`sendMessageToBackground`. -/
inductive ObsMsg where
  | stateReport (muted : Bool) (finalState : Bool)
  | disconnected
  | muteButtonFound
deriving DecidableEq, Repr

/-- The value `handleMessage` returns to the sender. -/
inductive ObsResponse where
  | state (muted : Bool)
  | muteButtonNotFound
deriving DecidableEq, Repr

/-- Everything one `handleMessage` episode does: the synchronous
response, whether the synthetic keydown was dispatched, the confirmed
report the delayed `updateMuted(finalState)` call sends (if a toggle
was handled), and the cached `muted` flag once all timers have fired. -/
structure HandleResult where
  response : ObsResponse
  keyboardSent : Bool
  finalReport : Option ObsMsg
  mutedAfter : Bool
deriving DecidableEq, Repr

/-- `handleMessage(request)` (meetmute.js lines 170-223), with the
button-present branch of `updateMuted` (lines 95-111) inlined for the
delayed confirmed report: re-read `muted = isMuted()` from the DOM; on
`request.action === "toggleMute"` flip the cached flag optimistically,
dispatch the synthetic keydown, and schedule the quick check (logged
only) and the final check, whose value is always passed to
`updateMuted` and reported with `finalState: true`; the synchronous
return carries the cached flag.  The `request.muted` payload is never
read. -/
def handleMessage (request : Command) (dom : Dom) (muted0 : Bool) :
    HandleResult :=
  if dom.buttonPresent then
    let m := dom.attrNow
    if request.action == "toggleMute" then
      let finalState := dom.attrFinal
      { response := .state (!m)
        keyboardSent := true
        finalReport := some (.stateReport finalState true)
        mutedAfter := finalState }
    else
      { response := .state m
        keyboardSent := false
        finalReport := none
        mutedAfter := m }
  else
    { response := .muteButtonNotFound
      keyboardSent := false
      finalReport := none
      mutedAfter := muted0 }

example :
    (handleMessage ⟨"toggleMute", true⟩ ⟨true, true, true, false⟩ true).finalReport
      = some (.stateReport false true) := by decide

/-!
Helper lemmas shared by the claim theorems.
-/

/-- The broadcast loop keeps exactly the tabs whose port did not throw. -/
theorem broadcastLoop_fst (fails : TabId → Bool) (cmd : Command)
    (reg : List TabId) :
    (broadcastLoop fails cmd reg).1 = reg.filter (fun t => !fails t) := by
  induction reg with
  | nil => rfl
  | cons t rest ih =>
    simp only [broadcastLoop, List.filter_cons]
    cases h : fails t <;> simp [h, ih]

/-- The broadcast loop posts the command to exactly the tabs whose port
did not throw, in registry order. -/
theorem broadcastLoop_snd (fails : TabId → Bool) (cmd : Command)
    (reg : List TabId) :
    (broadcastLoop fails cmd reg).2
      = (reg.filter (fun t => !fails t)).map (fun t => .portPost t cmd) := by
  induction reg with
  | nil => rfl
  | cons t rest ih =>
    simp only [broadcastLoop, List.filter_cons]
    cases h : fails t <;> simp [h, ih]

/-- No broadcast path ever paints the badge. -/
theorem sendMessage_no_setBadge (reg : List TabId) (env : Env)
    (cmd : Command) (b : Badge) :
    Effect.setBadge b ∉ (sendMessageToContentScript reg env cmd).2 := by
  unfold sendMessageToContentScript
  split
  · rw [broadcastLoop_snd]
    simp
  · simp

/-- The registry operations of the background script: a content
script's channel connecting, a tab being removed, a channel
disconnecting. -/
inductive RegOp where
  | register (t : TabId)
  | tabClosed (t : TabId)
  | channelDisconnect (t : TabId)

/-- Dispatch one registry operation through the corresponding listener. -/
def applyRegOp (s : BgState) : RegOp → BgState
  | .register t => (handleConnect s "meetmute-connection" t).1
  | .tabClosed t => (handleTabRemoved s t).1
  | .channelDisconnect t => (handlePortDisconnect s t).1

/-- Run a sequence of registry operations from the initial state. -/
def runRegOps (ops : List RegOp) : BgState :=
  ops.foldl applyRegOp initialBgState

/-- The invariant the registry operations actually maintain: when the
registry is empty, `hasMeetTab` is false. -/
def regInvariant (s : BgState) : Prop :=
  s.registry = [] → s.global.hasMeetTab = false

/-- Each registry operation preserves `regInvariant`. -/
theorem applyRegOp_invariant (s : BgState) (op : RegOp)
    (h : regInvariant s) : regInvariant (applyRegOp s op) := by
  cases op with
  | register t =>
    intro hr
    by_cases hc : t ∈ s.registry <;>
      simp [applyRegOp, handleConnect, registerTab, hc] at hr
    exact h hr
  | tabClosed t =>
    intro hr
    by_cases hc : t ∈ s.registry
    · by_cases he : deleteTab s.registry t = []
      · simp [applyRegOp, handleTabRemoved, hc, he]
      · simp [applyRegOp, handleTabRemoved, hc, he] at hr
    · simp [applyRegOp, handleTabRemoved, hc] at hr ⊢
      exact h hr
  | channelDisconnect t =>
    intro hr
    by_cases he : deleteTab s.registry t = []
    · simp [applyRegOp, handlePortDisconnect, he]
    · simp [applyRegOp, handlePortDisconnect, he] at hr

/-- `regInvariant` holds after any fold of registry operations. -/
theorem foldl_regOps_invariant (ops : List RegOp) (s : BgState)
    (h : regInvariant s) : regInvariant (ops.foldl applyRegOp s) := by
  induction ops generalizing s with
  | nil => exact h
  | cons op rest ih => exact ih _ (applyRegOp_invariant s op h)

/-!
Claim theorems.
-/

/-- C1 (counterexample): the claim "after each operation `hasMeetTab`
is true iff `activeMeetTabs` is non-empty" fails after a single
register: `onConnect` stores the session but never sets `hasMeetTab`,
so the registry is non-empty while `hasMeetTab` is still false. -/
theorem hasMeetTab_iff_nonempty_fails :
    ¬ ((runRegOps [.register 1]).global.hasMeetTab = true ↔
        (runRegOps [.register 1]).registry ≠ []) := by
  decide

/-- C1 (amended): along every sequence of register/unregister
operations from the initial state, after each operation `hasMeetTab`
is false whenever the registry is empty (equivalently,
`hasMeetTab = true` implies a session is registered); the converse
implication does not hold, because `onConnect` does not set
`hasMeetTab`. -/
theorem regOps_empty_not_active (ops : List RegOp)
    (h : (runRegOps ops).registry = []) :
    (runRegOps ops).global.hasMeetTab = false :=
  foldl_regOps_invariant ops initialBgState (fun _ => rfl) h

/-- C1 (witness): a register followed by a channel disconnect empties
the registry, and the amended invariant yields `hasMeetTab = false`. -/
theorem regOps_empty_not_active_witness :
    (runRegOps [.register 1, .channelDisconnect 1]).registry = [] ∧
    (runRegOps [.register 1, .channelDisconnect 1]).global.hasMeetTab = false :=
  ⟨by decide, regOps_empty_not_active [.register 1, .channelDisconnect 1] (by decide)⟩

/-- C2: a `"muted"`/`"unmuted"` message with `finalState` set — over
the port or as a one-shot message — overwrites `isMuted` with the
reported value, forces `hasMeetTab := true` regardless of its prior
value, leaves the registry alone and repaints the badge from the new
state. -/
theorem finalReport_sets_aggregate (s : BgState) (b : Bool) :
    handlePortMessage s ⟨if b then "muted" else "unmuted", true⟩
      = ({ s with global := ⟨b, true⟩ },
         [.setBadge (badgeFor ⟨b, true⟩)]) ∧
    handleOneShotMessage s ⟨if b then "muted" else "unmuted", true⟩
      = ({ s with global := ⟨b, true⟩ },
         [.setBadge (badgeFor ⟨b, true⟩)]) := by
  cases b <;> exact ⟨rfl, rfl⟩

/-- C3: broadcasting to a non-empty registry keeps exactly the
sessions whose channel did not throw (so a throwing channel removes
only its own session), still posts the command to every surviving
session, and never falls back to a tab query; with an empty registry
the broadcast issues the URL-pattern tab query and a one-shot send
attempt to each found tab, leaving the registry alone. -/
theorem broadcast_partial_failure (reg : List TabId) (env : Env)
    (cmd : Command) :
    (reg ≠ [] →
      (sendMessageToContentScript reg env cmd).1
          = reg.filter (fun t => !env.fails t) ∧
      (∀ t ∈ reg, env.fails t = false →
        Effect.portPost t cmd ∈ (sendMessageToContentScript reg env cmd).2) ∧
      (∀ t ∈ reg, env.fails t = true →
        t ∉ (sendMessageToContentScript reg env cmd).1) ∧
      (∀ p, Effect.tabsQuery p ∉ (sendMessageToContentScript reg env cmd).2)) ∧
    (reg = [] →
      sendMessageToContentScript reg env cmd
        = (reg, .tabsQuery meetUrlPattern ::
            env.fallbackTabs.map (fun t => .tabSend t cmd))) := by
  constructor
  · intro hne
    have hlen : reg.length > 0 := List.length_pos.mpr hne
    have hfst : (sendMessageToContentScript reg env cmd).1
        = reg.filter (fun t => !env.fails t) := by
      simp [sendMessageToContentScript, hlen, broadcastLoop_fst]
    have hsnd : (sendMessageToContentScript reg env cmd).2
        = (reg.filter (fun t => !env.fails t)).map
            (fun t => .portPost t cmd) := by
      simp [sendMessageToContentScript, hlen, broadcastLoop_snd]
    refine ⟨hfst, ?_, ?_, ?_⟩
    · intro t ht hok
      rw [hsnd]
      exact List.mem_map_of_mem _ (List.mem_filter.mpr ⟨ht, by simp [hok]⟩)
    · intro t _ hbad
      rw [hfst]
      intro hmem
      have := (List.mem_filter.mp hmem).2
      simp [hbad] at this
    · intro p
      rw [hsnd]
      simp
  · intro he
    subst he
    rfl

/-- C3 (witness): with tabs 4 and 5 registered and tab 4's channel
throwing, the broadcast drops only tab 4 and still posts to tab 5. -/
theorem broadcast_partial_failure_witness :
    ([4, 5] : List TabId) ≠ [] ∧
    (sendMessageToContentScript [4, 5]
        ⟨none, none, fun t => t == 4, []⟩ ⟨"toggleMute", true⟩).1 = [5] ∧
    Effect.portPost 5 ⟨"toggleMute", true⟩ ∈
      (sendMessageToContentScript [4, 5]
        ⟨none, none, fun t => t == 4, []⟩ ⟨"toggleMute", true⟩).2 := by
  have h := (broadcast_partial_failure [4, 5]
    ⟨none, none, fun t => t == 4, []⟩ ⟨"toggleMute", true⟩).1 (by decide)
  refine ⟨by decide, ?_, h.2.1 5 (by decide) (by decide)⟩
  rw [h.1]
  decide

/-- C4: for a `toggleMute` command handled with the mute button
present, the confirmed (`finalState: true`) report carries the
attribute value of the final check, whatever the quick check read. -/
theorem toggle_reports_final_check (request : Command) (dom : Dom)
    (muted0 : Bool) (hbtn : dom.buttonPresent = true)
    (hact : request.action = "toggleMute") :
    (handleMessage request dom muted0).finalReport
      = some (.stateReport dom.attrFinal true) := by
  simp [handleMessage, hbtn, hact]

/-- C4 (witness): quick check `true`, final check `false` — the
confirmed report says unmuted (`false`): the final check wins. -/
theorem toggle_reports_final_check_witness :
    (⟨true, false, true, false⟩ : Dom).buttonPresent = true ∧
    (⟨"toggleMute", false⟩ : Command).action = "toggleMute" ∧
    (handleMessage ⟨"toggleMute", false⟩ ⟨true, false, true, false⟩ false).finalReport
      = some (.stateReport false true) :=
  ⟨rfl, rfl, toggle_reports_final_check ⟨"toggleMute", false⟩
    ⟨true, false, true, false⟩ false rfl rfl⟩

/-- C10: the observer's handler never reads the command's `muted`
payload — two commands differing only in that field produce identical
behavior (response, keystroke, confirmed report, cached flag). -/
theorem muted_payload_noninterference (a : String) (m1 m2 : Bool)
    (dom : Dom) (muted0 : Bool) :
    handleMessage ⟨a, m1⟩ dom muted0 = handleMessage ⟨a, m2⟩ dom muted0 :=
  rfl

/-- C5 (counterexample): the registered keyboard command runs
`simpleToggleMute(true)` ("treat like icon click"), so with the stored
preference `false` and one registered tab its synchronous trace
contains no optimistic paint of the requested muted badge, contrary to
the claim that non-icon toggles paint the badge immediately. -/
theorem command_toggle_no_optimistic_paint :
    Effect.setBadge (muteBadge true) ∉
      (handleCommand "toggle_mute" (quietEnv (some false)) [7]).immediate := by
  decide

/-- C5 (amended): the optimistic paint is governed solely by
`simpleToggleMute`'s `fromIconClick` flag — it paints the requested
badge immediately iff the flag is false — but both triggers pass
`true`: the keyboard command handler calls `simpleToggleMute(true)`
and so does the icon click (on a non-empty registry), so neither
trigger paints optimistically. -/
theorem optimistic_paint_iff_flag_clear (env : Env) (reg : List TabId) :
    Effect.setBadge (muteBadge (!(env.stored.getD false))) ∈
      (simpleToggleMute false env reg).immediate ∧
    (∀ b, Effect.setBadge b ∉ (simpleToggleMute true env reg).immediate) ∧
    handleCommand "toggle_mute" env reg = simpleToggleMute true env reg ∧
    (reg ≠ [] → handleIconClick env reg = simpleToggleMute true env reg) := by
  refine ⟨?_, ?_, rfl, ?_⟩
  · simp [simpleToggleMute]
  · intro b
    simp only [simpleToggleMute, if_pos, List.nil_append, List.mem_cons]
    rintro (hbad | hbad)
    · simp at hbad
    · exact sendMessage_no_setBadge reg env _ b hbad
  · intro hne
    simp [handleIconClick, hne]

/-- C5 (witness): the icon-click clause at a concrete non-empty
registry. -/
theorem optimistic_paint_iff_flag_clear_witness :
    ([7] : List TabId) ≠ [] ∧
    handleIconClick (quietEnv (some false)) [7]
      = simpleToggleMute true (quietEnv (some false)) [7] :=
  ⟨by decide,
    (optimistic_paint_iff_flag_clear (quietEnv (some false)) [7]).2.2.2
      (by decide)⟩

/-- C6 (counterexample): an explicit `"disconnected"` report does not
remove the session — with tab 5 the sole registered session, after the
report the registry still holds tab 5, contrary to the claim that the
session is destroyed. -/
theorem disconnected_report_keeps_session :
    (handlePortMessage ⟨[5], ⟨true, true⟩⟩
        ⟨"disconnected", false⟩).1.registry = [5] := by
  decide

/-- C6 (amended): an explicit `"disconnected"` report never touches
the registry (only tab closure and channel disconnection remove
sessions); when at most one session is registered it clears
`hasMeetTab` and shows the disconnected badge, and with two or more
sessions it is a complete no-op. -/
theorem disconnected_report_behavior (s : BgState) (f : Bool) :
    (handlePortMessage s ⟨"disconnected", f⟩).1.registry = s.registry ∧
    (s.registry.length ≤ 1 →
      handlePortMessage s ⟨"disconnected", f⟩
        = ({ s with global := { s.global with hasMeetTab := false } },
           [.setBadge disconnectedBadge])) ∧
    (1 < s.registry.length →
      handlePortMessage s ⟨"disconnected", f⟩ = (s, [])) := by
  have hred : handlePortMessage s ⟨"disconnected", f⟩
      = if s.registry.length ≤ 1 then
          ({ s with global := { s.global with hasMeetTab := false } },
           [.setBadge disconnectedBadge])
        else (s, []) := rfl
  by_cases hl : s.registry.length ≤ 1
  · rw [hred, if_pos hl]
    exact ⟨rfl, fun _ => rfl, fun hgt => absurd hl (by omega)⟩
  · rw [hred, if_neg hl]
    exact ⟨rfl, fun hle => absurd hle hl, fun _ => rfl⟩

/-- C6 (witness): the last remaining session reports disconnected —
the registry keeps the session while `hasMeetTab` is cleared and the
disconnected badge shown. -/
theorem disconnected_report_behavior_witness :
    (([5] : List TabId).length ≤ 1) ∧
    handlePortMessage ⟨[5], ⟨true, true⟩⟩ ⟨"disconnected", false⟩
      = (⟨[5], ⟨true, false⟩⟩, [.setBadge disconnectedBadge]) :=
  ⟨by decide,
    (disconnected_report_behavior ⟨[5], ⟨true, true⟩⟩ false).2.1 (by decide)⟩

/-- C7: every toggle run negates the stored preference (an absent
value negates to `true`, i.e. it is treated as `false`), persists the
negation as the first effect — before any send —, optionally paints,
then broadcasts; the verification timer is 300 ms from an icon click
and 500 ms otherwise (strictly shorter for the direct UI action), and
its callback repaints from the preference as re-read at that time,
with no dependence on any observer confirmation. -/
theorem toggle_sequence_contract (fromIconClick : Bool) (env : Env)
    (reg : List TabId) :
    (simpleToggleMute fromIconClick env reg).immediate
      = .storageSet (!(env.stored.getD false)) ::
        ((if fromIconClick then [] else
            [.setBadge (muteBadge (!(env.stored.getD false)))]) ++
          (sendMessageToContentScript reg env
            ⟨"toggleMute", !(env.stored.getD false)⟩).2) ∧
    (simpleToggleMute fromIconClick env reg).delay
      = (if fromIconClick then 300 else 500) ∧
    (simpleToggleMute true env reg).delay
      < (simpleToggleMute false env reg).delay ∧
    (simpleToggleMute fromIconClick env reg).delayed
      = [.setBadge (muteBadge (env.storedAtCheck.getD false))] := by
  exact ⟨rfl, rfl, by simp [simpleToggleMute], rfl⟩

/-- A final port report is the only port message that can change
`isMuted`. -/
theorem portMessage_isMuted_change (s : BgState) (m : InMsg)
    (h : (handlePortMessage s m).1.global.isMuted ≠ s.global.isMuted) :
    m.finalState = true ∧ (m.message = "muted" ∨ m.message = "unmuted") := by
  unfold handlePortMessage at h
  split at h
  · next h1 =>
    split at h
    · next hf => exact ⟨hf, Or.inl (by simpa using h1)⟩
    · exact absurd rfl h
  · next h1 =>
    split at h
    · next h2 =>
      split at h
      · next hf => exact ⟨hf, Or.inr (by simpa using h2)⟩
      · exact absurd rfl h
    · next h2 =>
      split at h
      · split at h
        · exact absurd rfl h
        · exact absurd rfl h
      · exact absurd rfl h

/-- A final one-shot report is the only one-shot message that can
change `isMuted`. -/
theorem oneShotMessage_isMuted_change (s : BgState) (m : InMsg)
    (h : (handleOneShotMessage s m).1.global.isMuted ≠ s.global.isMuted) :
    m.finalState = true ∧ (m.message = "muted" ∨ m.message = "unmuted") := by
  unfold handleOneShotMessage at h
  split at h
  · exact absurd rfl h
  · split at h
    · next h2 =>
      split at h
      · next hf => exact ⟨hf, by simpa using h2⟩
      · exact absurd rfl h
    · exact absurd rfl h

/-- C8: across every background event, `isMuted` changes only under a
port or one-shot message carrying `finalState = true` with message
`"muted"` or `"unmuted"`; the toggle paths (keyboard command and icon
click) leave the whole aggregate state untouched — they write only the
persisted preference. -/
theorem isMuted_mutation_surface (env : Env) (s : BgState) :
    (∀ e : BgEvent,
      (bgStep env s e).1.global.isMuted ≠ s.global.isMuted →
        ∃ t m, (e = .portMsg t m ∨ e = .oneShotMsg t m) ∧
          m.finalState = true ∧
          (m.message = "muted" ∨ m.message = "unmuted")) ∧
    (∀ name, (bgStep env s (.command name)).1.global = s.global) ∧
    (bgStep env s .iconClick).1.global = s.global := by
  refine ⟨?_, fun _ => rfl, rfl⟩
  intro e h
  cases e with
  | connect portName t =>
    exfalso; apply h
    show (handleConnect s portName t).1.global.isMuted = s.global.isMuted
    unfold handleConnect
    split <;> rfl
  | tabRemoved t =>
    exfalso; apply h
    show (handleTabRemoved s t).1.global.isMuted = s.global.isMuted
    unfold handleTabRemoved
    dsimp only
    split
    · split <;> rfl
    · rfl
  | portDisconnect t =>
    exfalso; apply h
    show (handlePortDisconnect s t).1.global.isMuted = s.global.isMuted
    unfold handlePortDisconnect
    dsimp only
    split <;> rfl
  | portMsg t m => exact ⟨t, m, Or.inl rfl, portMessage_isMuted_change s m h⟩
  | oneShotMsg t m =>
    exact ⟨t, m, Or.inr rfl, oneShotMessage_isMuted_change s m h⟩
  | command name => exact absurd rfl h
  | iconClick => exact absurd rfl h

/-- C8 (witness): a final `"muted"` port report changes `isMuted` from
the initial state, and the mutation-surface theorem attributes it. -/
theorem isMuted_mutation_surface_witness :
    (bgStep (quietEnv none) initialBgState
        (.portMsg 1 ⟨"muted", true⟩)).1.global.isMuted
      ≠ initialBgState.global.isMuted ∧
    ∃ t m,
      ((BgEvent.portMsg 1 ⟨"muted", true⟩) = .portMsg t m ∨
        (BgEvent.portMsg 1 ⟨"muted", true⟩) = .oneShotMsg t m) ∧
      m.finalState = true ∧
      (m.message = "muted" ∨ m.message = "unmuted") :=
  ⟨by decide, (isMuted_mutation_surface (quietEnv none) initialBgState).1
    (.portMsg 1 ⟨"muted", true⟩) (by decide)⟩

/-- C9 (counterexample): the icon click with zero sessions returns
before broadcasting, so the fallback tab query is never issued,
contrary to the claim that the fallback query path is attempted. -/
theorem icon_click_no_fallback_query :
    Effect.tabsQuery meetUrlPattern ∉
      ((handleIconClick (quietEnv none) []).immediate ++
        (handleIconClick (quietEnv none) []).delayed) := by
  decide

/-- C9 (amended): an icon click with zero registered sessions shows
the amber `"!"` warning, schedules its reversion to the disconnected
badge after 3000 ms, and performs no other effect — no channel send,
no one-shot send, and no fallback tab query (the handler returns
before broadcasting) — and leaves the registry and aggregate state
unchanged. -/
theorem zero_session_warning (env : Env) (s : BgState)
    (h : s.registry = []) :
    handleIconClick env s.registry =
      { newRegistry := s.registry
        immediate := [.setBadge warningBadge]
        delay := 3000
        delayed := [.setBadge disconnectedBadge] } ∧
    (bgStep env s .iconClick).1 = s := by
  constructor
  · rw [h]
    rfl
  · have hreg : (handleIconClick env s.registry).newRegistry = s.registry := by
      rw [h]
      rfl
    show { s with registry := (handleIconClick env s.registry).newRegistry } = s
    rw [hreg]

/-- C9 (witness): the warning scenario at the initial (empty) state. -/
theorem zero_session_warning_witness :
    initialBgState.registry = [] ∧
    handleIconClick (quietEnv none) initialBgState.registry =
      { newRegistry := []
        immediate := [.setBadge warningBadge]
        delay := 3000
        delayed := [.setBadge disconnectedBadge] } ∧
    (bgStep (quietEnv none) initialBgState .iconClick).1 = initialBgState :=
  ⟨rfl, (zero_session_warning (quietEnv none) initialBgState rfl).1,
    (zero_session_warning (quietEnv none) initialBgState rfl).2⟩
